import Mathlib

/-
Verification of SynBioAutomation.py (a Raspberry Pi transilluminator
image-acquisition script) against its natural-language specification.

The script is shallowly embedded below.  Its observable state is:
  - the pickle files it dumps/loads in the working directory ("path.p",
    "iso.p", "shutter_speed.p", "awb_gain.p", "analog_gain.p",
    "digital_gain.p"), modelled as an association list keyed by file name;
  - the directories it creates with os.makedirs;
  - the system crontab (python-crontab: the CronTab() constructor reads the
    system crontab into a fresh in-memory object, cron.new appends a job,
    remove_all empties the in-memory list, write persists the in-memory
    list back to the system);
  - the image files it produces (camera.capture followed by shutil.move;
    shutil.move replaces an existing destination file), keyed by
    destination directory and name; the timestamped name produced by
    time.strftime with format Year_Month_Day_HourMinuteSecond is an
    injective, order-preserving encoding of the wall-clock second, so it
    is modelled as the second itself;
  - the LED level on GPIO pin 12;
  - a trace of the hardware/external-tool actions, in program order.

Device behaviour (camera gain readings, captured image data, failures of
camera.capture and os.makedirs) and the wall clock are inputs of one
invocation, collected in an Env record.  A Python exception aborts the
invocation at once: nothing after the raising statement runs (the script
has no try/finally), which the embedding reflects by returning Res.err
with the state at the moment of the raise.  The gain-settle while-loop has
no bound in the source; it is embedded with explicit poll fuel, and an
exhausted fuel is the distinguished outcome Res.hang (the invocation never
terminates).
-/

namespace SynBio

/-- A value stored in a pickle file: the script dumps a string (the session
directory path), ints (iso, shutter_speed) and fractions (gains). -/
inductive PVal where
  | int (n : Int)
  | rat (q : ℚ)
  | pair (a b : ℚ)
  | str (s : String)
deriving DecidableEq

/-- External actions of one invocation, in program order. -/
inductive Ev where
  | gpioInit
  | gpioCleanup
  | ledOn
  | ledOff
  | shot
  | cronWrite
  | drivePush
deriving DecidableEq

/-- One crontab entry as begin_CRON builds it (lines 52-61): the command
string, job.minute.on(minute_time) and job.minute.every(CronTimeSetting). -/
structure CronJob where
  command : String
  minuteOn : String
  minuteEvery : String
deriving DecidableEq

/-- Name of a produced image file: the sentinel Initial.png from the
initialization pass, or the second-resolution timestamped name
Year_Month_Day_HourMinuteSecond.png of a capture (modelled by the
wall-clock second it encodes). -/
inductive ImgName where
  | initial
  | stamp (t : Nat)
deriving DecidableEq

/-- Persistent state outside the process: pickle files, directories, the
system crontab, image files (keyed by destination directory and name,
valued by the captured image data), the LED pin level, and the action
trace. -/
structure St where
  store : List (String × PVal)
  dirs : List String
  cron : List CronJob
  images : List ((String × ImgName) × Nat)
  led : Bool
  events : List Ev
deriving DecidableEq

/-- Ways one invocation of the script ends abnormally.  A missing pickle
file makes open(..) raise IOError, the spec's NotInitializedError; a
failing os.makedirs raises OSError, the spec's DirectoryCreationError; a
failing camera.capture raises picamera's error, the spec's DeviceError;
typeErr is Python's TypeError when a loaded value has the wrong shape. -/
inductive Err where
  | notInitialized (key : String)
  | dirCreation
  | device
  | typeErr
deriving DecidableEq

/-- Result of one invocation: normal exit with final state, a propagated
exception with the state at the raise, or non-termination in the
gain-settle loop. -/
inductive Res where
  | ok (s : St)
  | err (e : Err) (s : St)
  | hang
deriving DecidableEq

/-- Device and clock inputs of one invocation. -/
structure Env where
  /-- the (analog gain, digital gain) pair the camera reports at the n-th
  poll of the settle loop -/
  gains : Nat → ℚ × ℚ
  /-- the camera.awb_gains value read at line 99 into the local g, which
  the script never uses again -/
  awbConverged : ℚ × ℚ
  /-- the image data camera.capture produces in this invocation -/
  imageData : Nat
  /-- whether camera.capture succeeds in this invocation -/
  captureOk : Bool
  /-- whether os.makedirs succeeds when the directory is absent -/
  mkdirOk : Bool
  /-- poll budget used to make the unbounded settle loop a function -/
  fuel : Nat
  /-- current wall-clock second, as formatted by time.strftime at second
  resolution -/
  now : Nat
  /-- time.strftime of the minute field, used by begin_CRON -/
  nowMinute : String
  /-- os.getcwd() -/
  cwd : String
  /-- os.path.realpath(sys.argv[0]) -/
  progPath : String

/-- The white-balance constant 1.5 = 3/2 that line 101 assigns to both
channels, written as a reduced fraction so that the kernel can evaluate
comparisons on it (see awbFixed_eq below). -/
def awbFixed : ℚ := ⟨3, 2, by norm_num, by norm_num⟩

/-- Look a key up in the pickle store (open the file for reading). -/
def getP (store : List (String × PVal)) (k : String) : Option PVal :=
  match store with
  | [] => none
  | (k0, v) :: rest => if k0 = k then some v else getP rest k

/-- Write a key in the pickle store (pickle.dump to the file name),
replacing any previous contents of that file. -/
def setP (store : List (String × PVal)) (k : String) (v : PVal) :
    List (String × PVal) :=
  match store with
  | [] => [(k, v)]
  | (k0, v0) :: rest =>
      if k0 = k then (k, v) :: rest else (k0, v0) :: setP rest k v

/-- Place a file at a destination (shutil.move): an existing file at the
destination is replaced. -/
def setImage (imgs : List ((String × ImgName) × Nat)) (k : String × ImgName)
    (v : Nat) : List ((String × ImgName) × Nat) :=
  match imgs with
  | [] => [(k, v)]
  | (k0, v0) :: rest =>
      if k0 = k then (k, v) :: rest else (k0, v0) :: setImage rest k v

/-- Whether a file already exists at a destination. -/
def hasImage (imgs : List ((String × ImgName) × Nat))
    (k : String × ImgName) : Bool :=
  match imgs with
  | [] => false
  | (k0, _) :: rest => k0 = k || hasImage rest k

/-- Contents of the file at a destination, if present. -/
def getImage (imgs : List ((String × ImgName) × Nat))
    (k : String × ImgName) : Option Nat :=
  match imgs with
  | [] => none
  | (k0, v0) :: rest => if k0 = k then some v0 else getImage rest k

/-- Lines 95-96 / 136-137: while camera.analog_gain != 1 or
camera.digital_gain != 1: time.sleep(0.1).  Returns the index of the first
poll at which both gains equal the reference value 1, or none if the fuel
runs out before that. -/
def pollGains (g : Nat → ℚ × ℚ) : Nat → Nat → Option Nat
  | 0, _ => none
  | fuel + 1, i => if g i = (1, 1) then some i else pollGains g fuel (i + 1)

/-- The job begin_CRON builds (lines 56-58): the shell command from the
cwd and the script path, minute.on the current minute, minute.every the
CronTimeSetting argument. -/
def tcJob (env : Env) (cronTimeSetting : String) : CronJob :=
  { command := "cd " ++ env.cwd ++ " && sudo /usr/bin/python " ++
      env.progPath,
    minuteOn := env.nowMinute,
    minuteEvery := cronTimeSetting }

/-- Lines 52-61, begin_CRON(): CronTab() reads the system crontab,
cron.new appends one job (nothing removes prior entries), cron.write
persists the appended list. -/
def begin_CRON (cronTimeSetting : String) (env : Env) (s : St) : St :=
  { s with
    cron := s.cron ++ [tcJob env cronTimeSetting],
    events := s.events ++ [.cronWrite] }

/-- Lines 63-73, init_GPIO(): pin 12 set as output, initialized low. -/
def init_gpio (s : St) : St :=
  { s with led := false, events := s.events ++ [.gpioInit] }

/-- Lines 151-154, LED_ON(): pin 12 high. -/
def LED_ON (s : St) : St :=
  { s with led := true, events := s.events ++ [.ledOn] }

/-- Lines 156-159, LED_OFF(): pin 12 low. -/
def LED_OFF (s : St) : St :=
  { s with led := false, events := s.events ++ [.ledOff] }

/-- Line 196, GPIO.cleanup(): releases the pin configuration; it does not
drive the pin, so the LED level is unchanged. -/
def gpioCleanupSt (s : St) : St :=
  { s with events := s.events ++ [.gpioCleanup] }

/-- Lines 188-189 of the End branch: CronTab().remove_all() empties a
freshly read in-memory object that is then discarded without a write;
CronTab().write() reads the system crontab afresh and writes it back.
The system crontab is therefore unchanged. -/
def endTimeCourse (sysCron : List CronJob) : List CronJob :=
  let tab1 := sysCron
  let _cleared := (fun (_ : List CronJob) => ([] : List CronJob)) tab1
  let tab2 := sysCron
  tab2

/-- Lines 76-114, initialize_camera() (renamed: the source name is not
available here): fixes resolution/framerate/iso/shutter_speed, polls until
both gains equal 1, sets exposure_mode off (locking the gains at the
reference value 1), reads camera.awb_gains into the local g (env's
awbConverged, never used again), sets awb_mode off and awb_gains to
(1.5, 1.5), captures Initial.png, loads path.p, moves the sentinel into
the session directory, shells out to drive push, and dumps iso (100),
shutter_speed (1000000), awb_gains ((1.5, 1.5)), analog_gain (1) and
digital_gain (1) to their pickle files. -/
def init_camera (env : Env) (s : St) : Res :=
  match pollGains env.gains env.fuel 0 with
  | none => .hang
  | some _ =>
    if env.captureOk then
      match getP s.store "path.p" with
      | none => .err (.notInitialized "path.p")
          { s with events := s.events ++ [.shot] }
      | some (.str path) =>
          .ok { s with
            store := setP (setP (setP (setP (setP s.store
              "iso.p" (.int 100))
              "shutter_speed.p" (.int 1000000))
              "awb_gain.p" (.pair awbFixed awbFixed))
              "analog_gain.p" (.rat 1))
              "digital_gain.p" (.rat 1),
            images := setImage s.images (path, .initial) env.imageData,
            events := s.events ++ [.shot] ++ [.drivePush] }
      | some _ => .err .typeErr { s with events := s.events ++ [.shot] }
    else .err .device s

/-- Lines 116-149, continuous_capture(): loads iso.p and shutter_speed.p,
polls until both gains equal 1, loads awb_gain.p and assigns it to the
camera, builds the timestamped filename and destination from path.p,
captures, moves the file to the destination (replacing an existing file of
the same name), and shells out to drive push.  It dumps nothing: the
pickle store is only read. -/
def continuous_capture (env : Env) (s : St) : Res :=
  match getP s.store "iso.p" with
  | none => .err (.notInitialized "iso.p") s
  | some _ =>
    match getP s.store "shutter_speed.p" with
    | none => .err (.notInitialized "shutter_speed.p") s
    | some _ =>
      match pollGains env.gains env.fuel 0 with
      | none => .hang
      | some _ =>
        match getP s.store "awb_gain.p" with
        | none => .err (.notInitialized "awb_gain.p") s
        | some _ =>
          match getP s.store "path.p" with
          | none => .err (.notInitialized "path.p") s
          | some (.str path) =>
            if env.captureOk then
              .ok { s with
                images := setImage s.images (path, .stamp env.now)
                  env.imageData,
                events := s.events ++ [.shot] ++ [.drivePush] }
            else .err .device s
          | some _ => .err .typeErr s

/-- Tail of the Initialize branch after the output directory exists
(lines 170-175): appends the trailing slash, dumps path.p, runs the
camera-initialization pass, and on success turns the LED off and cleans
up the GPIO. -/
def initAfterDir (env : Env) (path : String) (s : St) : Res :=
  match init_camera env
      { s with store := setP s.store "path.p" (.str (path ++ "/")) } with
  | .ok s2 => .ok (gpioCleanupSt (LED_OFF s2))
  | .err e s2 => .err e s2
  | .hang => .hang

/-- Lines 161-196, the command dispatch under __main__: init_gpio sets
pin 12 low; three arguments select Initialize (LED on, create the session
directory unless it exists, dump path.p, camera-initialization pass, LED
off) or TimeCourse (begin_CRON, LED on, capture, LED off); two arguments
select End (the discarded remove_all, see endTimeCourse); any other
argument count takes a single capture (LED on, capture, LED off).
GPIO.cleanup() on line 196 runs only when no exception propagated. -/
def pymain (argv : List String) (env : Env) (s : St) : Res :=
  match argv with
  | [_, a1, a2] =>
    if a1 = "Initialize" then
      if env.cwd ++ "/" ++ a2 ∈ s.dirs then
        initAfterDir env (env.cwd ++ "/" ++ a2) (LED_ON (init_gpio s))
      else if env.mkdirOk then
        initAfterDir env (env.cwd ++ "/" ++ a2)
          { LED_ON (init_gpio s) with
            dirs := (env.cwd ++ "/" ++ a2) :: s.dirs }
      else .err .dirCreation (LED_ON (init_gpio s))
    else if a1 = "TimeCourse" then
      match continuous_capture env
          (LED_ON (begin_CRON a2 env (init_gpio s))) with
      | .ok s2 => .ok (gpioCleanupSt (LED_OFF s2))
      | .err e s2 => .err e s2
      | .hang => .hang
    else .ok (gpioCleanupSt (init_gpio s))
  | [_, a1] =>
    if a1 = "End" then
      .ok (gpioCleanupSt
        { init_gpio s with
          cron := endTimeCourse s.cron,
          events := (init_gpio s).events ++ [.cronWrite] })
    else .ok (gpioCleanupSt (init_gpio s))
  | _ =>
    match continuous_capture env (LED_ON (init_gpio s)) with
    | .ok s2 => .ok (gpioCleanupSt (LED_OFF s2))
    | .err e s2 => .err e s2
    | .hang => .hang

/-- Run a sequence of plain Capture() invocations (no-argument runs),
threading the persistent state; stops at the first abnormal end. -/
def runCaptures (prog : String) (envs : List Env) (s : St) : Res :=
  match envs with
  | [] => .ok s
  | e :: rest =>
    match pymain [prog] e s with
    | .ok s2 => runCaptures prog rest s2
    | r => r

/-- The calibration profile as the spec groups the persisted fields. -/
structure CalibrationProfile where
  iso : Int
  shutter : Int
  awb : ℚ × ℚ
  analog : ℚ
  digital : ℚ
deriving DecidableEq

/-- The profile the auto-calibration pass of the camera-initialization
function produces (lines 89-101 and the dumps at 108-112): iso 100,
shutter 1000000, analog and digital gain locked at the settle loop's
reference value 1, and white balance overwritten with the constant
(1.5, 1.5). -/
def autoCalibrate : CalibrationProfile :=
  { iso := 100, shutter := 1000000, awb := (awbFixed, awbFixed),
    analog := 1, digital := 1 }

/-- load() of the calibration store: read the five profile pickle files. -/
def loadProfile (store : List (String × PVal)) : Option CalibrationProfile :=
  match getP store "iso.p", getP store "shutter_speed.p",
        getP store "awb_gain.p", getP store "analog_gain.p",
        getP store "digital_gain.p" with
  | some (.int i), some (.int sp), some (.pair a b), some (.rat ag),
      some (.rat dg) =>
      some { iso := i, shutter := sp, awb := (a, b), analog := ag,
             digital := dg }
  | _, _, _, _, _ => none

/-- Final state carried by a result (hang carries none; an empty state
stands in for it). -/
def stOf : Res → St
  | .ok s => s
  | .err _ s => s
  | .hang =>
      { store := [], dirs := [], cron := [], images := [], led := false,
        events := [] }

/-- Whether a result is a normal exit. -/
def isOk : Res → Bool
  | .ok _ => true
  | _ => false

/-- A device environment in which the gains settle immediately, capture
and makedirs succeed, and the clock reads second 100 of minute "30". -/
def env0 : Env :=
  { gains := fun _ => (1, 1), awbConverged := (2, 3), imageData := 7,
    captureOk := true, mkdirOk := true, fuel := 4, now := 100,
    nowMinute := "30", cwd := "/home/pi",
    progPath := "/home/pi/SynBioAutomation.py" }

/-- The empty persistent state: no pickle files, no session directory, an
empty crontab, no images, LED low. -/
def st0 : St :=
  { store := [], dirs := [], cron := [], images := [], led := false,
    events := [] }

/-- The pickle store as Initialize leaves it for session directory
/home/pi/Exp. -/
def readyStore : List (String × PVal) :=
  [("path.p", .str "/home/pi/Exp/"), ("iso.p", .int 100),
   ("shutter_speed.p", .int 1000000),
   ("awb_gain.p", .pair awbFixed awbFixed), ("analog_gain.p", .rat 1),
   ("digital_gain.p", .rat 1)]

/-- A persistent state in which a session has been initialized. -/
def st1 : St :=
  { store := readyStore, dirs := ["/home/pi/Exp"], cron := [], images := [],
    led := false, events := [] }

/-! Helper lemmas about the store, the image map and the settle loop. -/

/-- The reduced-fraction form of the white-balance constant is the
literal 1.5 = 3/2 of line 101. -/
theorem awbFixed_eq : awbFixed = 3 / 2 := by
  rw [awbFixed, Rat.mk'_eq_divInt, Rat.divInt_eq_div]
  norm_num

theorem getP_setP (st : List (String × PVal)) (k k' : String) (v : PVal) :
    getP (setP st k v) k' = if k = k' then some v else getP st k' := by
  induction st with
  | nil => simp [setP, getP]
  | cons hd tl ih =>
    obtain ⟨k0, v0⟩ := hd
    by_cases h0 : k0 = k
    · subst h0
      by_cases h1 : k0 = k' <;> simp [setP, getP, h1]
    · by_cases h1 : k0 = k'
      · subst h1
        have hk : ¬k = k0 := fun h => h0 h.symm
        simp [setP, getP, h0, hk]
      · simp [setP, getP, h0, h1, ih]

theorem hasImage_setImage (imgs : List ((String × ImgName) × Nat))
    (k k' : String × ImgName) (v : Nat) :
    hasImage (setImage imgs k v) k' = (k = k' || hasImage imgs k') := by
  induction imgs with
  | nil => simp [setImage, hasImage]
  | cons hd tl ih =>
    obtain ⟨k0, v0⟩ := hd
    by_cases h0 : k0 = k
    · subst h0
      by_cases h1 : k0 = k' <;> simp [setImage, hasImage, h1]
    · by_cases h1 : k0 = k'
      · subst h1
        simp [setImage, hasImage, h0]
      · simp [setImage, hasImage, h0, h1, ih]

theorem setImage_length_new (imgs : List ((String × ImgName) × Nat))
    (k : String × ImgName) (v : Nat) (h : hasImage imgs k = false) :
    (setImage imgs k v).length = imgs.length + 1 := by
  induction imgs with
  | nil => simp [setImage]
  | cons hd tl ih =>
    obtain ⟨k0, v0⟩ := hd
    simp only [hasImage, Bool.or_eq_false_iff, decide_eq_false_iff_not] at h
    simp [setImage, h.1, ih h.2]

theorem setImage_length_old (imgs : List ((String × ImgName) × Nat))
    (k : String × ImgName) (v : Nat) (h : hasImage imgs k = true) :
    (setImage imgs k v).length = imgs.length := by
  induction imgs with
  | nil => simp [hasImage] at h
  | cons hd tl ih =>
    obtain ⟨k0, v0⟩ := hd
    by_cases h0 : k0 = k
    · simp [setImage, h0]
    · simp only [hasImage, Bool.or_eq_true, decide_eq_true_eq] at h
      rcases h with h | h
      · exact absurd h h0
      · simp [setImage, h0, ih h]

theorem getImage_setImage_same (imgs : List ((String × ImgName) × Nat))
    (k : String × ImgName) (v : Nat) :
    getImage (setImage imgs k v) k = some v := by
  induction imgs with
  | nil => simp [setImage, getImage]
  | cons hd tl ih =>
    obtain ⟨k0, v0⟩ := hd
    by_cases h0 : k0 = k <;> simp [setImage, getImage, h0, ih]

/-- The settle loop exits exactly at the first poll where both gains equal
the reference value 1: whatever index it returns reports (1, 1), lies at
or after the start index, and every poll between the start index and it
reported something else. -/
theorem pollGains_some (g : Nat → ℚ × ℚ) (fuel : Nat) :
    ∀ i n, pollGains g fuel i = some n →
      g n = (1, 1) ∧ i ≤ n ∧ ∀ m, i ≤ m → m < n → g m ≠ (1, 1) := by
  induction fuel with
  | zero => intro i n h; simp [pollGains] at h
  | succ f ih =>
    intro i n h
    simp only [pollGains] at h
    by_cases hg : g i = (1, 1)
    · rw [if_pos hg] at h
      cases h
      exact ⟨hg, le_refl _, fun m h1 h2 => absurd (lt_of_le_of_lt h1 h2)
        (lt_irrefl _)⟩
    · rw [if_neg hg] at h
      obtain ⟨h1, h2, h3⟩ := ih (i + 1) n h
      refine ⟨h1, le_trans (Nat.le_succ i) h2, fun m hm1 hm2 => ?_⟩
      rcases Nat.eq_or_lt_of_le hm1 with he | hl
      · exact he ▸ hg
      · exact h3 m hl hm2

/-- If the device never reports both gains equal to 1, the settle loop
never exits, whatever the poll budget. -/
theorem pollGains_none (g : Nat → ℚ × ℚ) (hg : ∀ n, g n ≠ (1, 1)) :
    ∀ fuel i, pollGains g fuel i = none := by
  intro fuel
  induction fuel with
  | zero => intro i; rfl
  | succ f ih =>
    intro i
    simp only [pollGains]
    rw [if_neg (hg i)]
    exact ih (i + 1)

/-- If some poll reports both gains equal to 1, a large enough poll budget
makes the settle loop exit. -/
theorem pollGains_finds (g : Nat → ℚ × ℚ) :
    ∀ fuel i, (∃ m, i ≤ m ∧ m < i + fuel ∧ g m = (1, 1)) →
      pollGains g fuel i ≠ none := by
  intro fuel
  induction fuel with
  | zero =>
    rintro i ⟨m, h1, h2, _⟩
    omega
  | succ f ih =>
    rintro i ⟨m, h1, h2, h3⟩
    simp only [pollGains]
    by_cases hg : g i = (1, 1)
    · simp [hg]
    · rw [if_neg hg]
      apply ih (i + 1)
      rcases Nat.eq_or_lt_of_le h1 with he | hl
      · exact absurd (he ▸ h3) hg
      · exact ⟨m, hl, by omega, h3⟩

/-! Structural lemmas: what each successful run does to the state. -/

/-- Unfolding of the dispatch for a three-argument command line. -/
theorem pymain_three (p a1 a2 : String) (env : Env) (s : St) :
    pymain [p, a1, a2] env s =
      (if a1 = "Initialize" then
        if env.cwd ++ "/" ++ a2 ∈ s.dirs then
          initAfterDir env (env.cwd ++ "/" ++ a2) (LED_ON (init_gpio s))
        else if env.mkdirOk then
          initAfterDir env (env.cwd ++ "/" ++ a2)
            { LED_ON (init_gpio s) with
              dirs := (env.cwd ++ "/" ++ a2) :: s.dirs }
        else .err .dirCreation (LED_ON (init_gpio s))
      else if a1 = "TimeCourse" then
        match continuous_capture env
            (LED_ON (begin_CRON a2 env (init_gpio s))) with
        | .ok s2 => .ok (gpioCleanupSt (LED_OFF s2))
        | .err e s2 => .err e s2
        | .hang => .hang
      else .ok (gpioCleanupSt (init_gpio s))) := rfl

/-- Unfolding of the dispatch for a two-argument command line. -/
theorem pymain_two (p a1 : String) (env : Env) (s : St) :
    pymain [p, a1] env s =
      (if a1 = "End" then
        .ok (gpioCleanupSt
          { init_gpio s with
            cron := endTimeCourse s.cron,
            events := (init_gpio s).events ++ [.cronWrite] })
      else .ok (gpioCleanupSt (init_gpio s))) := rfl

/-- Unfolding of the dispatch for a one-argument command line, the plain
Capture() invocation. -/
theorem pymain_one (p : String) (env : Env) (s : St) :
    pymain [p] env s =
      (match continuous_capture env (LED_ON (init_gpio s)) with
      | .ok s2 => .ok (gpioCleanupSt (LED_OFF s2))
      | .err e s2 => .err e s2
      | .hang => .hang) := rfl

/-- A successful capture reads the session path from the store and places
exactly one file, named by the current second, into the session directory,
touching nothing else (in particular the pickle store is only read). -/
theorem continuous_capture_ok (env : Env) (s s' : St)
    (h : continuous_capture env s = .ok s') :
    ∃ path, getP s.store "path.p" = some (.str path) ∧
      s' = { s with
             images := setImage s.images (path, .stamp env.now)
               env.imageData,
             events := s.events ++ [.shot] ++ [.drivePush] } := by
  unfold continuous_capture at h
  iterate 8 (all_goals try split at h)
  all_goals cases h
  exact ⟨_, by assumption, rfl⟩

/-- A successful camera-initialization pass dumps the five profile files,
places the sentinel image into the session directory, and touches nothing
else. -/
theorem init_camera_ok (env : Env) (s s' : St)
    (h : init_camera env s = .ok s') :
    ∃ path, getP s.store "path.p" = some (.str path) ∧
      s' = { s with
             store := setP (setP (setP (setP (setP s.store
               "iso.p" (.int 100))
               "shutter_speed.p" (.int 1000000))
               "awb_gain.p" (.pair awbFixed awbFixed))
               "analog_gain.p" (.rat 1))
               "digital_gain.p" (.rat 1),
             images := setImage s.images (path, .initial) env.imageData,
             events := s.events ++ [.shot] ++ [.drivePush] } := by
  unfold init_camera at h
  iterate 8 (all_goals try split at h)
  all_goals cases h
  exact ⟨_, by assumption, rfl⟩

/-- A successful plain (no-argument) invocation: LED on, one capture into
the session directory, LED off, GPIO cleanup; store, directories and
crontab unchanged, LED low at exit. -/
theorem pymain_capture_ok (p : String) (env : Env) (s s' : St)
    (h : pymain [p] env s = .ok s') :
    ∃ path, getP s.store "path.p" = some (.str path) ∧
      s' = { s with
             led := false,
             images := setImage s.images (path, .stamp env.now)
               env.imageData,
             events := s.events ++ [.gpioInit] ++ [.ledOn] ++ [.shot] ++
               [.drivePush] ++ [.ledOff] ++ [.gpioCleanup] } := by
  rw [pymain_one] at h
  split at h
  next s2 heq =>
    obtain ⟨path, hp, rfl⟩ := continuous_capture_ok _ _ _ heq
    cases h
    exact ⟨path, hp, rfl⟩
  next => cases h
  next => cases h

/-- A successful TimeCourse invocation appends exactly one job to the
system crontab (begin_CRON removes nothing), then performs one capture;
store and directories are unchanged and the LED is low at exit. -/
theorem pymain_tc_ok (p m : String) (env : Env) (s s' : St)
    (h : pymain [p, "TimeCourse", m] env s = .ok s') :
    ∃ path, getP s.store "path.p" = some (.str path) ∧
      s' = { s with
             led := false,
             cron := s.cron ++ [tcJob env m],
             images := setImage s.images (path, .stamp env.now)
               env.imageData,
             events := s.events ++ [.gpioInit] ++ [.cronWrite] ++
               [.ledOn] ++ [.shot] ++ [.drivePush] ++ [.ledOff] ++
               [.gpioCleanup] } := by
  rw [pymain_three] at h
  rw [if_neg (by simp), if_pos rfl] at h
  split at h
  next s2 heq =>
    obtain ⟨path, hp, rfl⟩ := continuous_capture_ok _ _ _ heq
    cases h
    exact ⟨path, hp, rfl⟩
  next => cases h
  next => cases h

/-- A successful Initialize invocation: the directory for the session
exists afterwards (created unless it already existed), path.p and the
five profile files are dumped, the sentinel image is placed, and the LED
is low at exit. -/
theorem pymain_init_ok (p name : String) (env : Env) (s s' : St)
    (h : pymain [p, "Initialize", name] env s = .ok s') :
    ∃ ds,
      ((env.cwd ++ "/" ++ name ∈ s.dirs ∧ ds = s.dirs) ∨
        (env.cwd ++ "/" ++ name ∉ s.dirs ∧ env.mkdirOk = true ∧
          ds = (env.cwd ++ "/" ++ name) :: s.dirs)) ∧
      s' = { s with
             store := setP (setP (setP (setP (setP
               (setP s.store "path.p"
                 (.str (env.cwd ++ "/" ++ name ++ "/")))
               "iso.p" (.int 100))
               "shutter_speed.p" (.int 1000000))
               "awb_gain.p" (.pair awbFixed awbFixed))
               "analog_gain.p" (.rat 1))
               "digital_gain.p" (.rat 1),
             dirs := ds,
             images := setImage s.images
               (env.cwd ++ "/" ++ name ++ "/", .initial) env.imageData,
             led := false,
             events := s.events ++ [.gpioInit] ++ [.ledOn] ++ [.shot] ++
               [.drivePush] ++ [.ledOff] ++ [.gpioCleanup] } := by
  rw [pymain_three] at h
  rw [if_pos rfl] at h
  by_cases hd : env.cwd ++ "/" ++ name ∈ s.dirs
  · rw [if_pos hd] at h
    unfold initAfterDir at h
    split at h
    next s2 heq =>
      obtain ⟨path, hp, rfl⟩ := init_camera_ok _ _ _ heq
      rw [getP_setP, if_pos rfl] at hp
      cases hp
      cases h
      exact ⟨s.dirs, Or.inl ⟨hd, rfl⟩, rfl⟩
    next => cases h
    next => cases h
  · rw [if_neg hd] at h
    by_cases hm : env.mkdirOk
    · rw [if_pos hm] at h
      unfold initAfterDir at h
      split at h
      next s2 heq =>
        obtain ⟨path, hp, rfl⟩ := init_camera_ok _ _ _ heq
        rw [getP_setP, if_pos rfl] at hp
        cases hp
        cases h
        exact ⟨(env.cwd ++ "/" ++ name) :: s.dirs,
          Or.inr ⟨hd, hm, rfl⟩, rfl⟩
      next => cases h
      next => cases h
    · rw [if_neg hm] at h
      cases h

/-- When the session directory is absent and os.makedirs fails, the
Initialize invocation aborts with the directory-creation error, LED on. -/
theorem pymain_init_mkdir_fail (p name : String) (env : Env) (s : St)
    (hd : env.cwd ++ "/" ++ name ∉ s.dirs) (hm : env.mkdirOk = false) :
    pymain [p, "Initialize", name] env s =
      .err .dirCreation (LED_ON (init_gpio s)) := by
  rw [pymain_three, if_pos rfl, if_neg hd, hm]
  simp

/-- The camera-initialization pass never raises the directory-creation
error (its failures are the missing-store, type and device errors). -/
theorem init_camera_no_direrr (env : Env) (s s'' : St)
    (h : init_camera env s = .err .dirCreation s'') : False := by
  unfold init_camera at h
  iterate 8 (all_goals try split at h)
  all_goals simp at h

/-- The tail of Initialize after the directory step never raises the
directory-creation error. -/
theorem initAfterDir_no_direrr (env : Env) (path : String) (s s'' : St)
    (h : initAfterDir env path s = .err .dirCreation s'') : False := by
  unfold initAfterDir at h
  split at h
  next => cases h
  next e s2 heq =>
    cases h
    exact init_camera_no_direrr _ _ _ heq
  next => cases h

/-- A sequence of successful plain captures never changes the pickle
store, the directories or the crontab. -/
theorem runCaptures_ok (prog : String) (envs : List Env) (s s2 : St)
    (h : runCaptures prog envs s = .ok s2) :
    s2.store = s.store ∧ s2.cron = s.cron ∧ s2.dirs = s.dirs := by
  induction envs generalizing s with
  | nil =>
    cases h
    exact ⟨rfl, rfl, rfl⟩
  | cons e rest ih =>
    unfold runCaptures at h
    cases hp : pymain [prog] e s with
    | ok s3 =>
      rw [hp] at h
      obtain ⟨path, hpath, rfl⟩ := pymain_capture_ok _ _ _ _ hp
      obtain ⟨h1, h2, h3⟩ := ih _ h
      exact ⟨h1, h2, h3⟩
    | err er s3 =>
      rw [hp] at h
      exact Res.noConfusion h
    | hang =>
      rw [hp] at h
      exact Res.noConfusion h

/-- On a successful exit the tail of Initialize leaves the LED low. -/
theorem initAfterDir_led (env : Env) (path : String) (s s' : St)
    (h : initAfterDir env path s = .ok s') : s'.led = false := by
  unfold initAfterDir at h
  split at h
  next => cases h; rfl
  next => cases h
  next => cases h

/-! Claim theorems. -/

/-- C1 (amended): on every invocation that exits normally the actuator is
restored to OFF; the script has no cleanup handler, so this holds only of
the normal exit path — when calibration or capture raises, the actuator is
left in whatever state it had at the raise (the counterexample shows it is
left ON). -/
theorem led_off_after_normal_exit (argv : List String) (env : Env)
    (s s' : St) (h : pymain argv env s = .ok s') : s'.led = false := by
  unfold pymain at h
  split at h
  · split at h
    · split at h
      · exact initAfterDir_led _ _ _ _ h
      · split at h
        · exact initAfterDir_led _ _ _ _ h
        · cases h
    · split at h
      · split at h
        next => cases h; rfl
        next => cases h
        next => cases h
      · cases h; rfl
  · split at h
    · cases h; rfl
    · cases h; rfl
  · split at h
    next => cases h; rfl
    next => cases h
    next => cases h

/-- C1 witness: a concrete successful plain capture ends with the LED
low. -/
theorem led_off_after_normal_exit_witness :
    (stOf (pymain ["prog"] env0 st1)).led = false :=
  led_off_after_normal_exit ["prog"] env0 st1
    (stOf (pymain ["prog"] env0 st1)) (by decide)

/-- C1 counterexample: with an initialized store and a failing
camera.capture, the plain capture invocation aborts with the device error
and the LED is left ON — the actuator is not restored to OFF on the error
exit path, contrary to the claim. -/
theorem led_left_on_after_device_error :
    isOk (pymain ["prog"] { env0 with captureOk := false } st1) = false ∧
    (stOf (pymain ["prog"] { env0 with captureOk := false } st1)).led =
      true := by decide

/-- C2 (amended): a plain Capture() with no prior save in the store fails
with the missing-store error on iso.p and performs no filesystem writes
(store, directories, crontab and images of the exit state are those of the
entry state), but the actuator is switched ON before the failing load and
is left ON when the invocation aborts. -/
theorem capture_uninitialized (p : String) (env : Env) (s : St)
    (h : getP s.store "iso.p" = none) :
    pymain [p] env s =
      .err (.notInitialized "iso.p") (LED_ON (init_gpio s)) := by
  have hc : continuous_capture env (LED_ON (init_gpio s)) =
      .err (.notInitialized "iso.p") (LED_ON (init_gpio s)) := by
    unfold continuous_capture
    have h' : getP (LED_ON (init_gpio s)).store "iso.p" = none := h
    rw [h']
  rw [pymain_one, hc]

/-- C2 witness: the concrete empty store. -/
theorem capture_uninitialized_witness :
    pymain ["prog"] env0 st0 =
      .err (.notInitialized "iso.p") (LED_ON (init_gpio st0)) :=
  capture_uninitialized "prog" env0 st0 (by decide)

/-- C2 counterexample: on the empty store the plain capture invocation
fails and writes nothing, but the LED ends high — an actuator state
change, contrary to the claim's "no actuator state change". -/
theorem capture_uninitialized_led_change :
    isOk (pymain ["prog"] env0 st0) = false ∧
    (stOf (pymain ["prog"] env0 st0)).store = st0.store ∧
    (stOf (pymain ["prog"] env0 st0)).images = st0.images ∧
    (stOf (pymain ["prog"] env0 st0)).led = true := by decide

/-- C10: a two-argument invocation whose argument is not "End" (for
example a misspelled command) is a silent no-op: it exits normally with
the store, directories, crontab and images untouched, the LED low, and
only the GPIO initialization and cleanup in the trace. -/
theorem unknown_command_noop (p x : String) (env : Env) (s : St)
    (hx : x ≠ "End") :
    pymain [p, x] env s =
      .ok { s with
            led := false,
            events := s.events ++ [.gpioInit] ++ [.gpioCleanup] } := by
  rw [pymain_two, if_neg hx]
  rfl

/-- C10 witness: the concrete misspelled command "Foo". -/
theorem unknown_command_noop_witness :
    pymain ["prog", "Foo"] env0 st1 =
      .ok { st1 with
            led := false,
            events := st1.events ++ [.gpioInit] ++ [.gpioCleanup] } :=
  unknown_command_noop "prog" "Foo" env0 st1 (by decide)

/-- The initialized state with one crontab entry registered, as left by a
TimeCourse run: the concrete failing input for the End claim. -/
def stSched : St := { st1 with cron := [tcJob env0 "60"] }

/-- C3 (code bug): the End invocation exits normally and leaves the
calibration store untouched, so a later plain Capture() still succeeds —
but the registered crontab entry SURVIVES: remove_all() is called on a
freshly read CronTab object that is discarded, and write() persists a
second freshly read object, so the system crontab is written back
unchanged, contradicting the claim and the script's own docstring
(line 39). -/
theorem end_leaves_cron_entry :
    isOk (pymain ["prog", "End"] env0 stSched) = true ∧
    (stOf (pymain ["prog", "End"] env0 stSched)).cron = [tcJob env0 "60"] ∧
    (stOf (pymain ["prog", "End"] env0 stSched)).store = stSched.store ∧
    isOk (runCaptures "prog" [env0]
      (stOf (pymain ["prog", "End"] env0 stSched))) = true := by decide

/-- C4 (amended): a successful TimeCourse invocation does not clear prior
entries — it appends exactly one new crontab entry, so two runs in
succession leave the prior entries plus two new ones (two entries when
starting from an empty crontab), not one. -/
theorem timecourse_twice_two_entries (p m1 m2 : String) (e1 e2 : Env)
    (s s1 s2 : St) (h1 : pymain [p, "TimeCourse", m1] e1 s = .ok s1)
    (h2 : pymain [p, "TimeCourse", m2] e2 s1 = .ok s2) :
    s2.cron = s.cron ++ [tcJob e1 m1] ++ [tcJob e2 m2] := by
  obtain ⟨path1, hp1, rfl⟩ := pymain_tc_ok _ _ _ _ _ h1
  obtain ⟨path2, hp2, rfl⟩ := pymain_tc_ok _ _ _ _ _ h2
  rfl

/-- The state after one concrete TimeCourse run from the initialized
state with an empty crontab. -/
def tcRun1 : St := stOf (pymain ["prog", "TimeCourse", "60"] env0 st1)

/-- The state after a second concrete TimeCourse run. -/
def tcRun2 : St := stOf (pymain ["prog", "TimeCourse", "60"] env0 tcRun1)

/-- C4 witness: the two concrete runs leave the two appended entries. -/
theorem timecourse_twice_two_entries_witness :
    tcRun2.cron = st1.cron ++ [tcJob env0 "60"] ++ [tcJob env0 "60"] :=
  timecourse_twice_two_entries "prog" "60" "60" env0 env0 st1 tcRun1 tcRun2
    (by decide) (by decide)

/-- C4 counterexample: starting from an empty crontab, two successful
TimeCourse invocations leave two registered entries, not exactly one as
the claim states. -/
theorem timecourse_twice_not_one :
    isOk (pymain ["prog", "TimeCourse", "60"] env0 st1) = true ∧
    isOk (pymain ["prog", "TimeCourse", "60"] env0 tcRun1) = true ∧
    st1.cron.length = 0 ∧ tcRun2.cron.length = 2 := by decide

/-- C9: whatever white-balance gains the device converged to during
auto-calibration (the awbConverged component of the environment, read into
the local g at line 99 and never used), a successful Initialize persists
the constant pair (1.5, 1.5) = (awbFixed, awbFixed) in awb_gain.p. -/
theorem awb_persisted_constant (p name : String) (env : Env) (s s' : St)
    (h : pymain [p, "Initialize", name] env s = .ok s') :
    getP s'.store "awb_gain.p" = some (.pair awbFixed awbFixed) := by
  obtain ⟨ds, hds, rfl⟩ := pymain_init_ok _ _ _ _ _ h
  simp [getP_setP]

/-- C9 witness: a concrete Initialize run in an environment whose device
converged to the distinct gains (2, 3) still persists (1.5, 1.5). -/
theorem awb_persisted_constant_witness :
    getP (stOf (pymain ["prog", "Initialize", "Exp"] env0 st0)).store
      "awb_gain.p" = some (.pair awbFixed awbFixed) :=
  awb_persisted_constant "prog" "Exp" env0 st0
    (stOf (pymain ["prog", "Initialize", "Exp"] env0 st0)) (by decide)

/-- C5: after a successful Initialize, load() on the calibration store
returns exactly the profile the auto-calibration pass produced in that
call, and the stored profile is unchanged by any number of subsequent
successful plain Capture() invocations, which only read the store. -/
theorem profile_saved_and_stable (p name : String) (env : Env) (s s1 : St)
    (h : pymain [p, "Initialize", name] env s = .ok s1) :
    loadProfile s1.store = some autoCalibrate ∧
    ∀ (p2 : String) (envs : List Env) (s2 : St),
      runCaptures p2 envs s1 = .ok s2 →
        loadProfile s2.store = loadProfile s1.store := by
  obtain ⟨ds, hds, rfl⟩ := pymain_init_ok _ _ _ _ _ h
  constructor
  · simp [loadProfile, getP_setP, autoCalibrate]
  · intro p2 envs s2 h2
    obtain ⟨h1, _, _⟩ := runCaptures_ok _ _ _ _ h2
    rw [h1]

/-- The result of a concrete Initialize run on the empty state. -/
def initRun : Res := pymain ["prog", "Initialize", "Exp"] env0 st0

/-- C5 witness: after the concrete Initialize, load() returns the
auto-calibration profile, and it is unchanged after two further concrete
captures. -/
theorem profile_saved_and_stable_witness :
    loadProfile (stOf initRun).store = some autoCalibrate ∧
    loadProfile (stOf (runCaptures "prog" [env0, env0]
        (stOf initRun))).store = loadProfile (stOf initRun).store :=
  have h := profile_saved_and_stable "prog" "Exp" env0 st0 (stOf initRun)
    (by decide)
  ⟨h.1, h.2 "prog" [env0, env0]
    (stOf (runCaptures "prog" [env0, env0] (stOf initRun))) (by decide)⟩

/-- C7: Initialize creates the session directory under the working
directory.  If the directory already exists the creation step is skipped,
so no directory-creation error can arise and a successful run leaves the
directory list unchanged; if it is absent and creation succeeds, the run
adds it; if it is absent and creation fails, the invocation aborts with
the directory-creation error. -/
theorem init_creates_directory (p name : String) (env : Env) (s : St) :
    (env.cwd ++ "/" ++ name ∈ s.dirs →
      (∀ s'', pymain [p, "Initialize", name] env s ≠
        .err .dirCreation s'') ∧
      ∀ s', pymain [p, "Initialize", name] env s = .ok s' →
        s'.dirs = s.dirs) ∧
    (env.cwd ++ "/" ++ name ∉ s.dirs → env.mkdirOk = true →
      ∀ s', pymain [p, "Initialize", name] env s = .ok s' →
        s'.dirs = (env.cwd ++ "/" ++ name) :: s.dirs) ∧
    (env.cwd ++ "/" ++ name ∉ s.dirs → env.mkdirOk = false →
      pymain [p, "Initialize", name] env s =
        .err .dirCreation (LED_ON (init_gpio s))) := by
  refine ⟨fun hd => ⟨fun s'' hne => ?_, fun s' h => ?_⟩,
    fun hd hm s' h => ?_,
    fun hd hm => pymain_init_mkdir_fail p name env s hd hm⟩
  · rw [pymain_three, if_pos rfl, if_pos hd] at hne
    exact initAfterDir_no_direrr _ _ _ _ hne
  · obtain ⟨ds, hds, rfl⟩ := pymain_init_ok _ _ _ _ _ h
    rcases hds with ⟨_, rfl⟩ | ⟨hnd, _, _⟩
    · rfl
    · exact absurd hd hnd
  · obtain ⟨ds, hds, rfl⟩ := pymain_init_ok _ _ _ _ _ h
    rcases hds with ⟨hdm, _⟩ | ⟨_, _, rfl⟩
    · exact absurd hdm hd
    · rfl

/-- C7 witness: on the initialized state the session directory already
exists and a concrete re-Initialize leaves the directory list unchanged;
on the empty state with failing makedirs, the concrete run aborts with
the directory-creation error. -/
theorem init_creates_directory_witness :
    (stOf (pymain ["prog", "Initialize", "Exp"] env0 st1)).dirs =
      st1.dirs ∧
    pymain ["prog", "Initialize", "Exp"] { env0 with mkdirOk := false }
      st0 = .err .dirCreation (LED_ON (init_gpio st0)) :=
  ⟨((init_creates_directory "prog" "Exp" env0 st1).1 (by decide)).2
      (stOf (pymain ["prog", "Initialize", "Exp"] env0 st1)) (by decide),
    (init_creates_directory "prog" "Exp"
      { env0 with mkdirOk := false } st0).2.2 (by decide) (by decide)⟩

/-- C6 (amended): each successful plain capture places one file, named by
the wall-clock second of that invocation, in the session directory; two
captures at distinct seconds add two distinct files, but two captures in
the same second produce the same name, and the second invocation's
shutil.move REPLACES the first file (last writer wins), so only one file
remains. -/
theorem capture_file_naming (p1 p2 path : String) (e1 e2 : Env)
    (s s1 s2 : St)
    (h1 : pymain [p1] e1 s = .ok s1) (h2 : pymain [p2] e2 s1 = .ok s2)
    (hpath : getP s.store "path.p" = some (.str path))
    (hf1 : hasImage s.images (path, .stamp e1.now) = false)
    (hf2 : hasImage s.images (path, .stamp e2.now) = false) :
    getImage s2.images (path, .stamp e2.now) = some e2.imageData ∧
    (e1.now ≠ e2.now → s2.images.length = s.images.length + 2) ∧
    (e1.now = e2.now → s2.images.length = s.images.length + 1) := by
  obtain ⟨pa, hpa, rfl⟩ := pymain_capture_ok _ _ _ _ h1
  rw [hpath] at hpa
  injection hpa with hpa
  injection hpa with hpa
  subst hpa
  obtain ⟨pb, hpb, rfl⟩ := pymain_capture_ok _ _ _ _ h2
  have hpb' : getP s.store "path.p" = some (.str pb) := hpb
  rw [hpath] at hpb'
  injection hpb' with hpb'
  injection hpb' with hpb'
  subst hpb'
  refine ⟨getImage_setImage_same _ _ _, fun hne => ?_, fun heq => ?_⟩
  · have hkey : hasImage
        (setImage s.images (path, ImgName.stamp e1.now) e1.imageData)
        (path, ImgName.stamp e2.now) = false := by
      rw [hasImage_setImage, hf2]
      simp [hne]
    show (setImage (setImage s.images (path, ImgName.stamp e1.now)
        e1.imageData) (path, ImgName.stamp e2.now) e2.imageData).length =
      s.images.length + 2
    rw [setImage_length_new _ _ _ hkey, setImage_length_new _ _ _ hf1]
  · have hkey : hasImage
        (setImage s.images (path, ImgName.stamp e1.now) e1.imageData)
        (path, ImgName.stamp e2.now) = true := by
      rw [hasImage_setImage]
      simp [heq]
    show (setImage (setImage s.images (path, ImgName.stamp e1.now)
        e1.imageData) (path, ImgName.stamp e2.now) e2.imageData).length =
      s.images.length + 1
    rw [setImage_length_old _ _ _ hkey, setImage_length_new _ _ _ hf1]

/-- The state after one concrete capture at second 100. -/
def capRunA : St := stOf (pymain ["prog"] env0 st1)

/-- The state after a further concrete capture at the distinct second
101. -/
def capRunB : St :=
  stOf (pymain ["prog"] { env0 with now := 101 } capRunA)

/-- The state after a further concrete capture in the same second 100,
whose device produced different image data. -/
def capRunSame : St :=
  stOf (pymain ["prog"] { env0 with imageData := 8 } capRunA)

/-- C6 witness: two concrete captures at distinct seconds leave two
files, the second one holding the second capture's data. -/
theorem capture_file_naming_witness :
    getImage capRunB.images ("/home/pi/Exp/", .stamp 101) = some 7 ∧
    capRunB.images.length = st1.images.length + 2 :=
  have h := capture_file_naming "prog" "prog" "/home/pi/Exp/" env0
    { env0 with now := 101 } st1 capRunA capRunB
    (by decide) (by decide) (by decide) (by decide) (by decide)
  ⟨h.1, h.2.1 (by decide)⟩

/-- C6 counterexample: two successful captures in the same wall-clock
second leave ONE file, holding only the second capture's data — the
first output file is overwritten, contrary to the claim that same-second
calls do not clobber each other. -/
theorem same_second_capture_clobbers :
    isOk (pymain ["prog"] env0 st1) = true ∧
    isOk (pymain ["prog"] { env0 with imageData := 8 } capRunA) = true ∧
    capRunSame.images = [(("/home/pi/Exp/", ImgName.stamp 100), 8)] := by
  decide

/-- C8: in both the calibration pass and every capture, the settle loop
exits only when a poll reports both the analog and the digital gain equal
to the reference value 1 (and at the first such poll); if some poll
reports (1, 1) a large enough poll budget lets the loop exit, and if no
poll ever does, both the camera-initialization pass and the capture (once
its two leading loads succeed) never terminate, whatever the budget —
the loop has no timeout. -/
theorem gain_settle_no_timeout (env : Env) (s : St) :
    (∀ n, pollGains env.gains env.fuel 0 = some n →
      env.gains n = (1, 1) ∧ ∀ m, m < n → env.gains m ≠ (1, 1)) ∧
    ((∃ n, env.gains n = (1, 1)) →
      ∃ fuel, pollGains env.gains fuel 0 ≠ none) ∧
    ((∀ n, env.gains n ≠ (1, 1)) →
      init_camera env s = .hang ∧
      (getP s.store "iso.p" ≠ none →
        getP s.store "shutter_speed.p" ≠ none →
        continuous_capture env s = .hang)) := by
  refine ⟨fun n h => ?_, fun hex => ?_, fun hg => ⟨?_, fun hi hs => ?_⟩⟩
  · obtain ⟨h1, _, h3⟩ := pollGains_some env.gains env.fuel 0 n h
    exact ⟨h1, fun m hm => h3 m (Nat.zero_le m) hm⟩
  · obtain ⟨n, hn⟩ := hex
    exact ⟨n + 1,
      pollGains_finds env.gains (n + 1) 0 ⟨n, Nat.zero_le n, by omega, hn⟩⟩
  · unfold init_camera
    rw [pollGains_none env.gains hg]
  · rcases hiso : getP s.store "iso.p" with _ | v
    · exact absurd hiso hi
    rcases hsh : getP s.store "shutter_speed.p" with _ | w
    · exact absurd hsh hs
    unfold continuous_capture
    rw [hiso, hsh, pollGains_none env.gains hg]

/-- C8 witness: in the converging environment the first poll already
reports (1, 1); in an environment whose device always reports (2, 2),
both the concrete camera-initialization pass and the concrete capture on
the initialized store hang. -/
theorem gain_settle_no_timeout_witness :
    env0.gains 0 = (1, 1) ∧
    init_camera { env0 with gains := fun _ => (2, 2) } st1 = .hang ∧
    continuous_capture { env0 with gains := fun _ => (2, 2) } st1 =
      .hang :=
  have ha := (gain_settle_no_timeout env0 st1).1 0 (by decide)
  have hb := (gain_settle_no_timeout
    { env0 with gains := fun _ => (2, 2) } st1).2.2
    (fun n => by show ((2 : ℚ), (2 : ℚ)) ≠ (1, 1); decide)
  ⟨ha.1, hb.1, hb.2 (by decide) (by decide)⟩

end SynBio
